import Mathlib

/-!
# Verification of the Order Fulfillment & Delivery Scheduling Engine

Shallow embedding of the spice-tiffin-backend core services:

* `src/services/delivery-date.service.ts` — `DeliveryDateService` (the
  instance class wired into the coordinator via the exported
  `deliveryDateService` singleton, and the earlier static scanner class),
* `src/services/order.service.ts` — `createOrderFromPayment`,
  `updateAdminOrder`,
* `src/services/operationalDate.service.ts` — `getOperationalDateStatus`,
* `src/models/Order.model.ts`, `src/models/DeliveryDateSetting.model.ts` —
  schema defaults, enum membership, unique indexes.

Modelling conventions:

* JavaScript `Date` instants are `Nat` milliseconds since the Unix epoch
  (the code only manipulates post-1970 instants).
  `setUTCHours(0,0,0,0)` is `startOfDayUTC`; `setUTCDate(getUTCDate()+1)`
  followed by `setUTCHours(0,0,0,0)` is `startOfDayUTC t + msPerDay`.
* JavaScript numeric amounts/prices are `ℚ` (`Math.round` is Mathlib
  `round`, both round half away from zero upward); integer counts are `Int`.
* Mongo queries on a collection are functions over the `List` of stored
  documents.  A `find` with `sort({date: 1})` is modelled by projecting the
  `date` field and `insertionSort`-ing the projected values (projection and
  sorting by the projected key commute).
* Thrown JS errors are `Except JsError`; the `catch` block of
  `createOrderFromPayment` assigns `statusCode 500` to errors that carry
  none, which `classifyError` performs.
* External collaborators (geocoding adapter outcome, `new Date(string)`
  parsing, `mongoose.Types.ObjectId.isValid`) are parameters of the
  functions that consult them.
-/

/-- Milliseconds in one UTC day. -/
def msPerDay : Nat := 86400000

/-- `date.setUTCHours(0,0,0,0)`: truncate an instant to UTC midnight. -/
def startOfDayUTC (t : Nat) : Nat := (t / msPerDay) * msPerDay

/-- `normalizeDateUTC` helper of `delivery-date.service.ts`: normalize a
date to UTC midnight. -/
def normalizeDateUTC (t : Nat) : Nat := startOfDayUTC t

/-- A `DeliveryDateSetting` document
(`src/models/DeliveryDateSetting.model.ts`): a calendar day (stored
normalized to UTC midnight by the schema setter, unique-indexed) and its
enabled flag. -/
structure DeliveryDateSetting where
  date : Nat
  isEnabled : Bool
  deriving DecidableEq, Repr

/-- Sort a list of dates ascending (the `sort({date: 1})` clause of the
Mongo query, applied to the projected `date` values). -/
def sortDates (l : List Nat) : List Nat :=
  List.insertionSort (· ≤ ·) l

/-- `DeliveryDateService.prototype.getAvailableDates` (the instance class of
`delivery-date.service.ts`, used by the coordinator through the exported
`deliveryDateService` singleton):
`DeliveryDateSetting.find({date: {$gte: normalizedStartDate}, isEnabled:
true}).sort({date: 1}).limit(limit).select("date")`.
The query filters the stored settings, sorts ascending by date, truncates
to `limit` documents and projects the `date` field; projecting before
sorting yields the same list of dates. -/
def getAvailableDates (settings : List DeliveryDateSetting)
    (startDate : Nat) (limit : Int) : List Nat :=
  let normalizedStartDate := normalizeDateUTC startDate
  let matching := (settings.filter fun s =>
    decide (normalizedStartDate ≤ s.date) && s.isEnabled).map (·.date)
  (sortDates matching).take limit.toNat

/-- `String.prototype.toLowerCase` for the ASCII currency codes the
service handles: lower-case each character. -/
def jsToLower (s : String) : String := ⟨s.data.map Char.toLower⟩

/-- A thrown JS error: message plus the optional `statusCode` property the
services attach. -/
structure JsError where
  message : String
  statusCode : Option Nat
  deriving DecidableEq, Repr

/-- `new Error(msg)` with no `statusCode` property. -/
def plainError (msg : String) : JsError := ⟨msg, none⟩

/-- `new AppError(msg, code)` (`src/utils/AppError.ts`). -/
def appError (msg : String) (code : Nat) : JsError := ⟨msg, some code⟩

/-- The catch block of `createOrderFromPayment`: an error without a
`statusCode` is stamped with `500` before being rethrown. -/
def classifyError (e : JsError) : JsError :=
  { e with statusCode := some (e.statusCode.getD 500) }

/-- A Customer document, restricted to the fields `createOrderFromPayment`
reads (`src/models/Customer.model.ts`). -/
structure Customer where
  id : String
  fullName : String
  address : Option String
  city : Option String
  postalCode : Option String
  currentLocation : Option String
  deriving DecidableEq, Repr

/-- A Package document, restricted to the fields the coordinator reads
(`name`, `price`, `days`). -/
structure Package where
  id : String
  name : String
  price : ℚ
  days : Int
  deriving DecidableEq, Repr

/-- The `IDeliveryAddress` sub-document of an Order. -/
structure DeliveryAddress where
  address : Option String := none
  city : Option String := none
  postalCode : Option String := none
  currentLocation : Option String := none
  latitude : Option ℚ := none
  longitude : Option ℚ := none
  deriving DecidableEq, Repr

/-- The `IPaymentDetails` sub-document of an Order. -/
structure PaymentDetails where
  stripePaymentIntentId : String
  stripeCustomerId : String
  amountPaid : Int
  currency : String
  paymentMethodType : Option String := none
  cardBrand : Option String := none
  cardLast4 : Option String := none
  paymentDate : Nat
  deriving DecidableEq, Repr

/-- A persisted Order document (union of the fields written by the
coordinator and the delivery-management fields of
`src/models/Order.model.ts`). -/
structure OrderDoc where
  orderNumber : String
  customer : String
  packageId : String
  packageName : String
  packagePrice : ℚ
  deliveryDays : Int
  startDate : Nat
  endDate : Nat
  status : String
  deliverySchedule : List Nat
  deliveryAddress : DeliveryAddress
  paymentDetails : PaymentDetails
  assignedDriver : Option String
  deliveryStatus : String
  deliverySequence : Option Int := none
  proofOfDeliveryUrl : Option String := none
  deriving DecidableEq, Repr

/-- The persistent state the coordinator touches: the four collections it
reads or writes inside the transaction. -/
structure Store where
  customers : List Customer
  packages : List Package
  settings : List DeliveryDateSetting
  orders : List OrderDoc
  deriving DecidableEq, Repr

/-- The TS string enum `OrderStatus` of `Order.model.ts` as the JS object
it compiles to: member-name lookup, `undefined` for a non-member. -/
def OrderStatusMember : String → Option String
  | "ACTIVE" => some "Active"
  | "EXPIRED" => some "Expired"
  | "CANCELLED" => some "Cancelled"
  | _ => none

/-- The TS string enum `DeliveryStatus` of `Order.model.ts` as the JS
object it compiles to.  Note there is no `SCHEDULED` member, so
`DeliveryStatus.SCHEDULED` evaluates to `undefined` (`none`). -/
def DeliveryStatusMember : String → Option String
  | "PENDING_ASSIGNMENT" => some "Pending Assignment"
  | "ASSIGNED" => some "Assigned"
  | "OUT_FOR_DELIVERY" => some "Out for Delivery"
  | "DELIVERED" => some "Delivered"
  | "FAILED" => some "Failed"
  | "CANCELLED" => some "Cancelled"
  | _ => none

/-- `Object.values(OrderStatus)`, the schema enum validator list. -/
def orderStatusValues : List String := ["Active", "Expired", "Cancelled"]

/-- `Object.values(DeliveryStatus)`, the schema enum validator list. -/
def deliveryStatusValues : List String :=
  ["Pending Assignment", "Assigned", "Out for Delivery", "Delivered",
   "Failed", "Cancelled"]

/-- The parameters of `createOrderFromPayment` (`CreateOrderParams`). -/
structure CreateOrderParams where
  userId : String
  packageId : String
  stripePaymentIntentId : String
  stripeCustomerId : String
  amountPaid : Int
  currency : String
  paymentMethodType : Option String := none
  cardBrand : Option String := none
  cardLast4 : Option String := none
  deriving DecidableEq, Repr

/-- Outcome of the call to the geocoding adapter
(`geocodeAddress` in `src/utils/geocode.ts`): it resolves with
coordinates, resolves with `null` (not found, missing token, HTTP error or
the 5s axios timeout — all caught inside `geocodeAddress` and turned into
`null`), or rejects (defensively caught by the coordinator's own
try/catch). -/
inductive GeocodeOutcome where
  | success (latitude longitude : ℚ)
  | failure
  | thrown
  deriving DecidableEq, Repr

/-- `Customer.findById(userId)` within the transaction. -/
def findCustomer (store : Store) (id : String) : Option Customer :=
  store.customers.find? (·.id = id)

/-- `Package.findById(packageId)` within the transaction. -/
def findPackage (store : Store) (id : String) : Option Package :=
  store.packages.find? (·.id = id)

/-- `Order.findOne({"paymentDetails.stripePaymentIntentId": pi})`. -/
def findOrderByPaymentIntent (store : Store) (pi : String) : Option OrderDoc :=
  store.orders.find? (·.paymentDetails.stripePaymentIntentId = pi)

/-- Step 4 of the coordinator: build the delivery-address snapshot from
the customer and attach coordinates only when the geocoding adapter
succeeded (on `null` or a thrown error the address is left without
coordinates). -/
def buildDeliveryAddress (customer : Customer) (geo : GeocodeOutcome) :
    DeliveryAddress :=
  let base : DeliveryAddress :=
    { address := customer.address, city := customer.city,
      postalCode := customer.postalCode,
      currentLocation := customer.currentLocation }
  match geo with
  | .success la lo => { base with latitude := some la, longitude := some lo }
  | .failure => base
  | .thrown => base

/-- The object literal `newOrderData` assembled at step 7 of
`createOrderFromPayment`.  `status` and `deliveryStatus` are `Option`
because they hold TS-enum member accesses, which are `undefined` for a
non-member. -/
structure NewOrderData where
  orderNumber : String
  customer : String
  packageId : String
  packageName : String
  packagePrice : ℚ
  deliveryDays : Int
  startDate : Nat
  endDate : Nat
  status : Option String
  deliverySchedule : List Nat
  deliveryAddress : DeliveryAddress
  paymentDetails : PaymentDetails
  deliveryStatus : Option String
  deriving DecidableEq, Repr

/-- `Order.create([newOrderData], {session})`: mongoose applies the schema
defaults of `Order.model.ts` to absent (`undefined`) fields —
`status: OrderStatus.ACTIVE`, `deliveryStatus:
DeliveryStatus.PENDING_ASSIGNMENT`, `assignedDriver: null`,
`deliverySequence: null` — and validates enum-constrained strings against
`Object.values(...)`, rejecting the save with a ValidationError
otherwise. -/
def orderCreate (d : NewOrderData) : Except JsError OrderDoc :=
  let statusValue := d.status.getD "Active"
  let deliveryStatusValue := d.deliveryStatus.getD "Pending Assignment"
  if statusValue ∉ orderStatusValues then
    .error (plainError "Order validation failed: status")
  else if deliveryStatusValue ∉ deliveryStatusValues then
    .error (plainError "Order validation failed: deliveryStatus")
  else
    .ok { orderNumber := d.orderNumber
          customer := d.customer
          packageId := d.packageId
          packageName := d.packageName
          packagePrice := d.packagePrice
          deliveryDays := d.deliveryDays
          startDate := d.startDate
          endDate := d.endDate
          status := statusValue
          deliverySchedule := d.deliverySchedule
          deliveryAddress := d.deliveryAddress
          paymentDetails := d.paymentDetails
          assignedDriver := none
          deliveryStatus := deliveryStatusValue
          deliverySequence := none
          proofOfDeliveryUrl := none }

/-- The body of the `try` block of `createOrderFromPayment`
(`src/services/order.service.ts`), steps 1–9: fetch customer and package,
validate the package snapshot, verify the paid amount against
`Math.round(packagePrice * 100)`, idempotency lookup by payment-intent id
(abort and return the existing Order when found), build the address with
best-effort geocoding, compute the delivery schedule starting the day
after `now` (UTC), require the full count of dates, and persist the new
Order.  `now` is the `new Date()` placement instant, `orderNumber` the
generated order number; a thrown error aborts the transaction, so the
store is returned only on the success paths. -/
def createSteps (store : Store) (params : CreateOrderParams) (now : Nat)
    (orderNumber : String) (geo : GeocodeOutcome) :
    Except JsError (OrderDoc × Store) :=
  match findCustomer store params.userId with
  | none => .error (plainError ("Customer not found for ID: " ++ params.userId))
  | some customer =>
    match findPackage store params.packageId with
    | none =>
      .error (plainError ("Package not found for ID: " ++ params.packageId))
    | some selectedPackage =>
      if selectedPackage.days ≤ 0 then
        .error (plainError ("Invalid number of deliveries (" ++
          toString selectedPackage.days ++ ") found for package " ++
          params.packageId ++ "."))
      else
        let expectedAmountCents : Int := round (selectedPackage.price * 100)
        if params.amountPaid ≠ expectedAmountCents then
          .error (plainError ("Payment amount mismatch. Expected " ++
            toString expectedAmountCents ++ ", received " ++
            toString params.amountPaid))
        else
          match findOrderByPaymentIntent store params.stripePaymentIntentId with
          | some existingOrder => .ok (existingOrder, store)
          | none =>
            let deliveryAddress := buildDeliveryAddress customer geo
            let paymentDetails : PaymentDetails :=
              { stripePaymentIntentId := params.stripePaymentIntentId
                stripeCustomerId := params.stripeCustomerId
                amountPaid := params.amountPaid
                currency := jsToLower params.currency
                paymentMethodType := params.paymentMethodType
                cardBrand := params.cardBrand
                cardLast4 := params.cardLast4
                paymentDate := now }
            let firstPossibleDeliveryDay := startOfDayUTC now + msPerDay
            let calculatedDeliveryDates :=
              getAvailableDates store.settings firstPossibleDeliveryDay
                selectedPackage.days
            if (calculatedDeliveryDates.length : Int) < selectedPackage.days then
              .error (plainError ("Unable to schedule all " ++
                toString selectedPackage.days ++
                " deliveries based on current availability."))
            else
              let calculatedEndDate := (calculatedDeliveryDates.getLast?).getD 0
              match orderCreate
                { orderNumber := orderNumber
                  customer := customer.id
                  packageId := selectedPackage.id
                  packageName := selectedPackage.name
                  packagePrice := selectedPackage.price
                  deliveryDays := selectedPackage.days
                  startDate := now
                  endDate := calculatedEndDate
                  status := OrderStatusMember "ACTIVE"
                  deliverySchedule := calculatedDeliveryDates
                  deliveryAddress := deliveryAddress
                  paymentDetails := paymentDetails
                  deliveryStatus := DeliveryStatusMember "SCHEDULED" } with
              | .error e => .error e
              | .ok newOrder =>
                .ok (newOrder, { store with orders := store.orders ++ [newOrder] })

/-- `createOrderFromPayment`: the `try` body wrapped in the catch block,
which aborts the transaction and stamps `statusCode 500` on errors that
carry none before rethrowing. -/
def createOrderFromPayment (store : Store) (params : CreateOrderParams)
    (now : Nat) (orderNumber : String) (geo : GeocodeOutcome) :
    Except JsError (OrderDoc × Store) :=
  match createSteps store params now orderNumber geo with
  | .error e => .error (classifyError e)
  | .ok r => .ok r

/-- The state of the Order collection after a call to
`createOrderFromPayment`: on any error the transaction was aborted, so the
store is unchanged. -/
def storeAfterCreate (store : Store) (params : CreateOrderParams)
    (now : Nat) (orderNumber : String) (geo : GeocodeOutcome) : Store :=
  match createOrderFromPayment store params now orderNumber geo with
  | .ok (_, s) => s
  | .error _ => store

/-- The JS value supplied for `assignedDriver` in an admin-update payload:
`null`, a raw id string, an object carrying an `_id`, or any other shape. -/
inductive DriverPatch where
  | pnull
  | pstr (s : String)
  | pobj (id : String)
  | pother
  deriving DecidableEq, Repr

/-- The JS value supplied for `startDate`/`endDate` in an admin-update
payload: a string (parsed with `new Date(...)`) or an already-constructed
`Date` object holding instant `t`. -/
inductive DatePatch where
  | str (s : String)
  | dateObj (t : Nat)
  deriving DecidableEq, Repr

/-- A partial `deliveryAddress` object in an admin-update payload: each
field is present (`some`) or absent. -/
structure AddressPatch where
  address : Option String := none
  city : Option String := none
  postalCode : Option String := none
  currentLocation : Option String := none
  latitude : Option ℚ := none
  longitude : Option ℚ := none
  deriving DecidableEq, Repr

/-- The allow-listed update payload accepted by `updateAdminOrder`
(the `allowedUpdates` array, which includes `deliverySchedule`); each
field is present (`some`, i.e. `hasOwnProperty` true) or absent. -/
structure AdminUpdatePatch where
  status : Option String := none
  deliveryStatus : Option String := none
  assignedDriver : Option DriverPatch := none
  deliverySequence : Option Int := none
  proofOfDeliveryUrl : Option String := none
  deliveryAddress : Option AddressPatch := none
  startDate : Option DatePatch := none
  endDate : Option DatePatch := none
  packageName : Option String := none
  packagePrice : Option ℚ := none
  deliveryDays : Option Int := none
  deliverySchedule : Option (List Nat) := none
  deriving DecidableEq, Repr

/-- One key of the nested `deliveryAddress` loop: the patch key is applied
only when the current address owns the key (`hasOwnProperty`) and the
values differ (`!==`). -/
def applyAddrField {α : Type} [DecidableEq α] (cur : Option α)
    (patchVal : Option α) : Option α × Bool :=
  match patchVal, cur with
  | some v, some c => if c ≠ v then (some v, true) else (cur, false)
  | _, _ => (cur, false)

/-- The nested-diffing loop over the keys of a partial `deliveryAddress`
patch; returns the updated address and whether any key changed
(`addressChanged`). -/
def applyAddressPatch (cur : DeliveryAddress) (p : AddressPatch) :
    DeliveryAddress × Bool :=
  let (address, c1) := applyAddrField cur.address p.address
  let (city, c2) := applyAddrField cur.city p.city
  let (postalCode, c3) := applyAddrField cur.postalCode p.postalCode
  let (currentLocation, c4) :=
    applyAddrField cur.currentLocation p.currentLocation
  let (latitude, c5) := applyAddrField cur.latitude p.latitude
  let (longitude, c6) := applyAddrField cur.longitude p.longitude
  ({ address := address, city := city, postalCode := postalCode,
     currentLocation := currentLocation, latitude := latitude,
     longitude := longitude }, c1 || c2 || c3 || c4 || c5 || c6)

/-- Normalization of the `assignedDriver` payload value inside
`updateAdminOrder`: `null` unassigns; a valid raw id or an object with a
valid `_id` becomes an ObjectId; every other shape only logs a warning and
leaves `driverIdToSet` at its initial `null`. -/
def normalizeDriverPatch (isValidId : String → Bool) :
    DriverPatch → Option String
  | .pnull => none
  | .pstr s => if isValidId s then some s else none
  | .pobj id => if isValidId id then some id else none
  | .pother => none

/-- `String(x)` applied to an ObjectId-or-null, as used in the
`assignedDriver` change check: `String(null)` is `"null"`, ObjectIds print
as their hex string. -/
def optIdToString : Option String → String
  | none => "null"
  | some s => s

/-- One iteration of the `allowedUpdates` loop of `updateAdminOrder`
(`src/services/order.service.ts`) for the `status` key: present and
`!==` the current value means assign and mark changed. -/
def stepStatus (p : AdminUpdatePatch) (acc : OrderDoc × Bool) :
    OrderDoc × Bool :=
  match p.status with
  | some v => if acc.1.status ≠ v then ({ acc.1 with status := v }, true)
              else acc
  | none => acc

/-- Loop iteration for `deliveryStatus`. -/
def stepDeliveryStatus (p : AdminUpdatePatch) (acc : OrderDoc × Bool) :
    OrderDoc × Bool :=
  match p.deliveryStatus with
  | some v => if acc.1.deliveryStatus ≠ v then
                ({ acc.1 with deliveryStatus := v }, true)
              else acc
  | none => acc

/-- Loop iteration for `assignedDriver`: normalize the payload value
(invalid shapes leave `driverIdToSet` at `null` after a warning), then
compare the `String(...)` forms and assign when they differ. -/
def stepAssignedDriver (isValidId : String → Bool) (p : AdminUpdatePatch)
    (acc : OrderDoc × Bool) : OrderDoc × Bool :=
  match p.assignedDriver with
  | some dv =>
    let driverIdToSet := normalizeDriverPatch isValidId dv
    if optIdToString acc.1.assignedDriver ≠ optIdToString driverIdToSet then
      ({ acc.1 with assignedDriver := driverIdToSet }, true)
    else acc
  | none => acc

/-- Loop iteration for `deliverySequence` (guarded by `typeof number`,
which the typed payload always satisfies). -/
def stepDeliverySequence (p : AdminUpdatePatch) (acc : OrderDoc × Bool) :
    OrderDoc × Bool :=
  match p.deliverySequence with
  | some v => if acc.1.deliverySequence ≠ some v then
                ({ acc.1 with deliverySequence := some v }, true)
              else acc
  | none => acc

/-- Loop iteration for `proofOfDeliveryUrl`. -/
def stepProofOfDeliveryUrl (p : AdminUpdatePatch) (acc : OrderDoc × Bool) :
    OrderDoc × Bool :=
  match p.proofOfDeliveryUrl with
  | some v => if acc.1.proofOfDeliveryUrl ≠ some v then
                ({ acc.1 with proofOfDeliveryUrl := some v }, true)
              else acc
  | none => acc

/-- Loop iteration for `deliveryAddress`: nested per-key diffing. -/
def stepDeliveryAddress (p : AdminUpdatePatch) (acc : OrderDoc × Bool) :
    OrderDoc × Bool :=
  match p.deliveryAddress with
  | some ap =>
    let r := applyAddressPatch acc.1.deliveryAddress ap
    if r.2 then ({ acc.1 with deliveryAddress := r.1 }, true) else acc
  | none => acc

/-- Loop iteration for `startDate`: a string value is parsed with
`new Date(...)` and assigned only when valid and different; a `Date`
object value satisfies neither inner branch, so nothing happens. -/
def stepStartDate (parseDate : String → Option Nat) (p : AdminUpdatePatch)
    (acc : OrderDoc × Bool) : OrderDoc × Bool :=
  match p.startDate with
  | some (.str s) =>
    match parseDate s with
    | some t => if acc.1.startDate ≠ t then ({ acc.1 with startDate := t }, true)
                else acc
    | none => acc
  | some (.dateObj _) => acc
  | none => acc

/-- Loop iteration for `endDate`, as for `startDate`. -/
def stepEndDate (parseDate : String → Option Nat) (p : AdminUpdatePatch)
    (acc : OrderDoc × Bool) : OrderDoc × Bool :=
  match p.endDate with
  | some (.str s) =>
    match parseDate s with
    | some t => if acc.1.endDate ≠ t then ({ acc.1 with endDate := t }, true)
                else acc
    | none => acc
  | some (.dateObj _) => acc
  | none => acc

/-- Loop iteration for `packageName`. -/
def stepPackageName (p : AdminUpdatePatch) (acc : OrderDoc × Bool) :
    OrderDoc × Bool :=
  match p.packageName with
  | some v => if acc.1.packageName ≠ v then
                ({ acc.1 with packageName := v }, true)
              else acc
  | none => acc

/-- Loop iteration for `packagePrice` (number-typed). -/
def stepPackagePrice (p : AdminUpdatePatch) (acc : OrderDoc × Bool) :
    OrderDoc × Bool :=
  match p.packagePrice with
  | some v => if acc.1.packagePrice ≠ v then
                ({ acc.1 with packagePrice := v }, true)
              else acc
  | none => acc

/-- Loop iteration for `deliveryDays` (number-typed). -/
def stepDeliveryDays (p : AdminUpdatePatch) (acc : OrderDoc × Bool) :
    OrderDoc × Bool :=
  match p.deliveryDays with
  | some v => if acc.1.deliveryDays ≠ v then
                ({ acc.1 with deliveryDays := v }, true)
              else acc
  | none => acc

/-- Loop iteration for `deliverySchedule`: its dedicated value-comparison
handler is commented out in the source, so the key falls to the generic
branch, whose `!==` compares the stored array against the
freshly-deserialized payload array by reference — always unequal — and
unconditionally assigns and marks the document changed. -/
def stepDeliverySchedule (p : AdminUpdatePatch) (acc : OrderDoc × Bool) :
    OrderDoc × Bool :=
  match p.deliverySchedule with
  | some l => ({ acc.1 with deliverySchedule := l }, true)
  | none => acc

/-- The field-update loop of `updateAdminOrder`
(`src/services/order.service.ts`), iterating `allowedUpdates` in source
order over a fetched Order document and an update payload, threading the
document and the `changesMade` flag.  Returns the mutated document and
the final flag (true exactly when `order.save()` is subsequently invoked,
i.e. a write occurs; on `false` the service returns the unchanged,
re-fetched Order).  `isValidId` stands for
`mongoose.Types.ObjectId.isValid`; `parseDate` for `new Date(string)`
(`none` = invalid date). -/
def applyAdminUpdates (isValidId : String → Bool)
    (parseDate : String → Option Nat) (order : OrderDoc)
    (patch : AdminUpdatePatch) : OrderDoc × Bool :=
  stepDeliverySchedule patch (stepDeliveryDays patch (stepPackagePrice patch
    (stepPackageName patch (stepEndDate parseDate patch (stepStartDate
      parseDate patch (stepDeliveryAddress patch (stepProofOfDeliveryUrl
        patch (stepDeliverySequence patch (stepAssignedDriver isValidId
          patch (stepDeliveryStatus patch (stepStatus patch
            (order, false))))))))))))

/-- An `OperationalDate` document (`src/models/OperationalDate.model.ts`):
per-day enabled flag with admin attribution, date unique per calendar
day. -/
structure OperationalDateRec where
  date : Nat
  isDeliveryEnabled : Bool
  notes : Option String := none
  setBy : Option String := none
  deriving DecidableEq, Repr

/-- `OperationalDateService.getOperationalDateStatus`
(`src/services/operationalDate.service.ts`): parse the date string
(`new Date(dateString)`, modelled by the `parseDate` collaborator,
`none` = `isNaN`), failing with `AppError(400)` when invalid; otherwise
normalize to UTC midnight and `findOne` the record for that day,
returning `null` when the day is not configured. -/
def getOperationalDateStatus (parseDate : String → Option Nat)
    (records : List OperationalDateRec) (dateString : String) :
    Except JsError (Option OperationalDateRec) :=
  match parseDate dateString with
  | none =>
    .error (appError ("Invalid date format provided: " ++ dateString) 400)
  | some t => .ok (records.find? (·.date = startOfDayUTC t))

/-- "Every present field of the patch equals the order's current value":
the hypothesis of the admin-update no-op claim, spelled out per field.
A present `assignedDriver` agrees when it denotes the current reference
(`null` against an unassigned order, or a raw/object id — valid per
`isValidId` — equal to the currently assigned one); a present
`startDate`/`endDate` agrees when the string parses to the current instant
or the `Date` object carries it; a present `deliveryAddress` key agrees
when the current sub-document has that key with the same value; a present
`deliverySchedule` agrees when it lists the current schedule. -/
def patchAgrees (isValidId : String → Bool)
    (parseDate : String → Option Nat) (o : OrderDoc)
    (p : AdminUpdatePatch) : Bool :=
  (match p.status with | some v => v == o.status | none => true) &&
  (match p.deliveryStatus with
   | some v => v == o.deliveryStatus | none => true) &&
  (match p.assignedDriver with
   | some .pnull => o.assignedDriver == none
   | some (.pstr s) => isValidId s && o.assignedDriver == some s
   | some (.pobj id) => isValidId id && o.assignedDriver == some id
   | some .pother => false
   | none => true) &&
  (match p.deliverySequence with
   | some v => o.deliverySequence == some v | none => true) &&
  (match p.proofOfDeliveryUrl with
   | some v => o.proofOfDeliveryUrl == some v | none => true) &&
  (match p.deliveryAddress with
   | some ap =>
     (match ap.address with
      | some v => o.deliveryAddress.address == some v | none => true) &&
     (match ap.city with
      | some v => o.deliveryAddress.city == some v | none => true) &&
     (match ap.postalCode with
      | some v => o.deliveryAddress.postalCode == some v | none => true) &&
     (match ap.currentLocation with
      | some v => o.deliveryAddress.currentLocation == some v
      | none => true) &&
     (match ap.latitude with
      | some v => o.deliveryAddress.latitude == some v | none => true) &&
     (match ap.longitude with
      | some v => o.deliveryAddress.longitude == some v | none => true)
   | none => true) &&
  (match p.startDate with
   | some (.str s) => parseDate s == some o.startDate
   | some (.dateObj t) => t == o.startDate
   | none => true) &&
  (match p.endDate with
   | some (.str s) => parseDate s == some o.endDate
   | some (.dateObj t) => t == o.endDate
   | none => true) &&
  (match p.packageName with
   | some v => v == o.packageName | none => true) &&
  (match p.packagePrice with
   | some v => v == o.packagePrice | none => true) &&
  (match p.deliveryDays with
   | some v => v == o.deliveryDays | none => true) &&
  (match p.deliverySchedule with
   | some l => l == o.deliverySchedule | none => true)

/-! ## Concrete fixtures used by witnesses and counterexamples -/

/-- A customer on file. -/
def wCustomer : Customer :=
  { id := "c1", fullName := "Alice Doe", address := some "1 Main St",
    city := some "Calgary", postalCode := some "T2P 1A1",
    currentLocation := some "" }

/-- A CAD 24.99 package with three deliveries. -/
def wPackage : Package :=
  { id := "p1", name := "Basic", price := (2499 : ℚ) / 100, days := 3 }

/-- Placement instant: midday (UTC) of epoch day 0. -/
def wNow : Nat := 43200000

/-- Generated order number used in the runs. -/
def wOrderNumber : String := "SBF-700101-AB12CD"

/-- Calendar: epoch days 1, 2, 3 enabled (listed unsorted), day 4
disabled. -/
def wStore : Store :=
  { customers := [wCustomer], packages := [wPackage],
    settings := [⟨172800000, true⟩, ⟨86400000, true⟩, ⟨259200000, true⟩,
                 ⟨345600000, false⟩],
    orders := [] }

/-- A payment-confirmed event matching `wPackage` exactly. -/
def wParams : CreateOrderParams :=
  { userId := "c1", packageId := "p1", stripePaymentIntentId := "pi_1",
    stripeCustomerId := "cus_1", amountPaid := 2499, currency := "CAD" }

/-- The Order that `createOrderFromPayment wStore wParams wNow
wOrderNumber .failure` persists. -/
def wOrder : OrderDoc :=
  { orderNumber := wOrderNumber, customer := "c1", packageId := "p1",
    packageName := "Basic", packagePrice := (2499 : ℚ) / 100,
    deliveryDays := 3, startDate := 43200000, endDate := 259200000,
    status := "Active",
    deliverySchedule := [86400000, 172800000, 259200000],
    deliveryAddress :=
      { address := some "1 Main St", city := some "Calgary",
        postalCode := some "T2P 1A1", currentLocation := some "" },
    paymentDetails :=
      { stripePaymentIntentId := "pi_1", stripeCustomerId := "cus_1",
        amountPaid := 2499, currency := "cad", paymentDate := 43200000 },
    assignedDriver := none, deliveryStatus := "Pending Assignment" }


/-- The Order document that the fresh-creation path of
`createOrderFromPayment` persists, as a function of the inputs; used by
`createSteps_ok_inv` to characterize the success path. -/
def newOrderRecord (store : Store) (params : CreateOrderParams) (now : Nat)
    (orderNumber : String) (geo : GeocodeOutcome) (customer : Customer)
    (pkg : Package) : OrderDoc :=
  let dates :=
    getAvailableDates store.settings (startOfDayUTC now + msPerDay) pkg.days
  { orderNumber := orderNumber
    customer := customer.id
    packageId := pkg.id
    packageName := pkg.name
    packagePrice := pkg.price
    deliveryDays := pkg.days
    startDate := now
    endDate := (dates.getLast?).getD 0
    status := "Active"
    deliverySchedule := dates
    deliveryAddress := buildDeliveryAddress customer geo
    paymentDetails :=
      { stripePaymentIntentId := params.stripePaymentIntentId
        stripeCustomerId := params.stripeCustomerId
        amountPaid := params.amountPaid
        currency := jsToLower params.currency
        paymentMethodType := params.paymentMethodType
        cardBrand := params.cardBrand
        cardLast4 := params.cardLast4
        paymentDate := now }
    assignedDriver := none
    deliveryStatus := "Pending Assignment" }

/-- The Order collection after the `wStore` run: the single new Order. -/
def wStoreAfter : Store := { wStore with orders := [wOrder] }

/-- The `wParams` event replayed with a mismatched amount (claim C1's
counterexample input: its payment-intent id already identifies
`wOrder`). -/
def c1Params : CreateOrderParams := { wParams with amountPaid := 100 }

/-- A fresh event paying 1999 cents against the 2499-cent package. -/
def c2Params : CreateOrderParams :=
  { wParams with amountPaid := 1999, stripePaymentIntentId := "pi_2" }

/-- A $10.00 single-delivery package. -/
def c4xPackage : Package := { id := "p2", name := "Solo", price := 10, days := 1 }

/-- Calendar whose only enabled day is epoch day 200 — far beyond the
90-day search window the spec describes. -/
def c4xStore : Store :=
  { customers := [wCustomer], packages := [c4xPackage],
    settings := [⟨17280000000, true⟩], orders := [] }

/-- Event matching `c4xPackage`. -/
def c4xParams : CreateOrderParams :=
  { userId := "c1", packageId := "p2", stripePaymentIntentId := "pi_4",
    stripeCustomerId := "cus_1", amountPaid := 1000, currency := "CAD" }

/-- The Order persisted in the `c4xStore` run: scheduled on epoch day
200. -/
def c4xOrder : OrderDoc :=
  { orderNumber := wOrderNumber, customer := "c1", packageId := "p2",
    packageName := "Solo", packagePrice := 10, deliveryDays := 1,
    startDate := 43200000, endDate := 17280000000, status := "Active",
    deliverySchedule := [17280000000],
    deliveryAddress :=
      { address := some "1 Main St", city := some "Calgary",
        postalCode := some "T2P 1A1", currentLocation := some "" },
    paymentDetails :=
      { stripePaymentIntentId := "pi_4", stripeCustomerId := "cus_1",
        amountPaid := 1000, currency := "cad", paymentDate := 43200000 },
    assignedDriver := none, deliveryStatus := "Pending Assignment" }

/-- Calendar with a single enabled day, too few for `wPackage`'s three
deliveries. -/
def c4wStore : Store :=
  { customers := [wCustomer], packages := [wPackage],
    settings := [⟨86400000, true⟩], orders := [] }

/-- Event matching `wPackage`, against the exhausted calendar. -/
def c4wParams : CreateOrderParams :=
  { wParams with stripePaymentIntentId := "pi_5" }

/-- A stand-in for `mongoose.Types.ObjectId.isValid`: 24-character hex-id
length check. -/
def wIsValid : String → Bool := fun s => s.length == 24

/-- A stand-in for `new Date(string)` covering the strings the fixtures
use. -/
def wParse : String → Option Nat := fun s =>
  if s = "1970-01-01T12:00:00Z" then some 43200000 else none

/-- An admin-update payload all of whose present fields equal `wOrder`'s
current values. -/
def c7AgreePatch : AdminUpdatePatch :=
  { status := some "Active", deliveryStatus := some "Pending Assignment",
    assignedDriver := some .pnull,
    deliveryAddress := some { city := some "Calgary" },
    startDate := some (.str "1970-01-01T12:00:00Z"),
    packageName := some "Basic", packagePrice := some ((2499 : ℚ) / 100),
    deliveryDays := some 3 }

/-- An admin-update payload whose only present field, `deliverySchedule`,
lists exactly `wOrder`'s current schedule. -/
def c7SchedPatch : AdminUpdatePatch :=
  { deliverySchedule := some [86400000, 172800000, 259200000] }

/-- `wOrder` with a driver assigned (a 24-character id). -/
def c8Order : OrderDoc :=
  { wOrder with assignedDriver := some "64aabbccddeeff0011223344" }

/-- An admin-update payload whose `assignedDriver` has an invalid shape
(e.g. a number). -/
def c8Patch : AdminUpdatePatch := { assignedDriver := some .pother }

/-- `new Date(string)` stand-in for the operational-date fixtures:
two parseable day strings. -/
def c9Parse : String → Option Nat := fun s =>
  if s = "2024-05-01" then some 1714521600000
  else if s = "2024-05-02" then some 1714608000000
  else none

/-- Operational-date collection: 2024-05-01 configured and enabled,
2024-05-02 not configured. -/
def c9Records : List OperationalDateRec :=
  [{ date := 1714521600000, isDeliveryEnabled := true, notes := some "open",
     setBy := some "admin1" }]

/-! ## Shared lemmas -/

lemma OrderStatusMember_ACTIVE : OrderStatusMember "ACTIVE" = some "Active" :=
  rfl

lemma DeliveryStatusMember_SCHEDULED :
    DeliveryStatusMember "SCHEDULED" = none := rfl

lemma createOrderFromPayment_ok_iff (store : Store)
    (params : CreateOrderParams) (now : Nat) (num : String)
    (geo : GeocodeOutcome) (r : OrderDoc × Store) :
    createOrderFromPayment store params now num geo = .ok r ↔
      createSteps store params now num geo = .ok r := by
  unfold createOrderFromPayment
  cases h : createSteps store params now num geo <;> simp

lemma orderCreate_coordinator (d : NewOrderData) (h1 : d.status = some "Active")
    (h2 : d.deliveryStatus = none) :
    orderCreate d = .ok
      { orderNumber := d.orderNumber
        customer := d.customer
        packageId := d.packageId
        packageName := d.packageName
        packagePrice := d.packagePrice
        deliveryDays := d.deliveryDays
        startDate := d.startDate
        endDate := d.endDate
        status := "Active"
        deliverySchedule := d.deliverySchedule
        deliveryAddress := d.deliveryAddress
        paymentDetails := d.paymentDetails
        assignedDriver := none
        deliveryStatus := "Pending Assignment"
        deliverySequence := none
        proofOfDeliveryUrl := none } := by
  unfold orderCreate
  rw [h1, h2]
  simp [orderStatusValues, deliveryStatusValues]

theorem createSteps_ok_inv (store : Store) (params : CreateOrderParams)
    (now : Nat) (num : String) (geo : GeocodeOutcome) (o : OrderDoc)
    (s' : Store)
    (hno : findOrderByPaymentIntent store params.stripePaymentIntentId = none)
    (h : createSteps store params now num geo = .ok (o, s')) :
    ∃ customer pkg, findCustomer store params.userId = some customer ∧
      findPackage store params.packageId = some pkg ∧ 0 < pkg.days ∧
      params.amountPaid = round (pkg.price * 100) ∧
      ¬(((getAvailableDates store.settings (startOfDayUTC now + msPerDay)
            pkg.days).length : Int) < pkg.days) ∧
      o = newOrderRecord store params now num geo customer pkg ∧
      s' = { store with orders := store.orders ++ [o] } := by
  simp only [createSteps] at h
  split at h
  · simp at h
  · rename_i customer hc
    split at h
    · simp at h
    · rename_i pkg hp
      split at h
      · simp at h
      · rename_i hd
        split at h
        · simp at h
        · rename_i ha
          rw [hno] at h
          split at h
          · rename_i ex heq
            simp at heq
          · split at h
            · simp at h
            · rename_i hlen
              simp only [orderCreate, OrderStatusMember_ACTIVE,
                DeliveryStatusMember_SCHEDULED, Option.getD_some,
                Option.getD_none, orderStatusValues,
                deliveryStatusValues] at h
              norm_num at h
              obtain ⟨ho, hs⟩ := h
              refine ⟨customer, pkg, hc, hp, by omega, not_not.mp ha, hlen,
                ho.symm, ?_⟩
              rw [← hs, ← ho]

lemma getAvailableDates_length (settings : List DeliveryDateSetting)
    (startDate : Nat) (limit : Int) :
    (getAvailableDates settings startDate limit).length =
      min limit.toNat ((settings.filter fun s =>
        decide (normalizeDateUTC startDate ≤ s.date) && s.isEnabled).length) := by
  unfold getAvailableDates sortDates
  rw [List.length_take, (List.perm_insertionSort _ _).length_eq,
    List.length_map]

lemma getAvailableDates_sorted (settings : List DeliveryDateSetting)
    (startDate : Nat) (limit : Int) :
    List.Sorted (· ≤ ·) (getAvailableDates settings startDate limit) := by
  unfold getAvailableDates sortDates
  exact (List.sorted_insertionSort _ _).sublist (List.take_sublist _ _)

lemma getAvailableDates_nodup (settings : List DeliveryDateSetting)
    (startDate : Nat) (limit : Int)
    (hnd : (settings.map (·.date)).Nodup) :
    (getAvailableDates settings startDate limit).Nodup := by
  unfold getAvailableDates sortDates
  have h1 : ((settings.filter fun s =>
      decide (normalizeDateUTC startDate ≤ s.date) && s.isEnabled).map
        (·.date)).Sublist (settings.map (·.date)) :=
    (List.filter_sublist _).map _
  have h2 := hnd.sublist h1
  have h3 := (List.perm_insertionSort (· ≤ ·) _).nodup_iff.mpr h2
  exact h3.sublist (List.take_sublist _ _)

lemma getAvailableDates_pairwise_lt (settings : List DeliveryDateSetting)
    (startDate : Nat) (limit : Int)
    (hnd : (settings.map (·.date)).Nodup) :
    (getAvailableDates settings startDate limit).Pairwise (· < ·) := by
  have h1 := getAvailableDates_sorted settings startDate limit
  have h2 := getAvailableDates_nodup settings startDate limit hnd
  exact (List.Pairwise.and h1 h2).imp fun h => lt_of_le_of_ne h.1 h.2

lemma getAvailableDates_mem (settings : List DeliveryDateSetting)
    (startDate : Nat) (limit : Int) (d : Nat)
    (hd : d ∈ getAvailableDates settings startDate limit) :
    normalizeDateUTC startDate ≤ d ∧
      (⟨d, true⟩ : DeliveryDateSetting) ∈ settings := by
  unfold getAvailableDates sortDates at hd
  have h1 := List.take_subset _ _ hd
  rw [List.mem_insertionSort] at h1
  obtain ⟨s, hs, rfl⟩ := List.mem_map.mp h1
  obtain ⟨hmem, hcond⟩ := List.mem_filter.mp hs
  simp only [Bool.and_eq_true, decide_eq_true_eq] at hcond
  refine ⟨hcond.1, ?_⟩
  have : s = ⟨s.date, true⟩ := by
    cases s with
    | mk da en =>
      simp only at hcond ⊢
      rw [hcond.2]
  rw [← this]
  exact hmem

lemma lt_startOfDayUTC_add (now : Nat) :
    now < startOfDayUTC now + msPerDay := by
  unfold startOfDayUTC msPerDay
  omega

lemma normalizeDateUTC_nextDay (now : Nat) :
    normalizeDateUTC (startOfDayUTC now + msPerDay) =
      startOfDayUTC now + msPerDay := by
  unfold normalizeDateUTC startOfDayUTC msPerDay
  omega

lemma createSteps_isOk_geo (store : Store) (params : CreateOrderParams)
    (now : Nat) (num : String) (geo geo' : GeocodeOutcome) :
    (createSteps store params now num geo).isOk =
      (createSteps store params now num geo').isOk := by
  unfold createSteps
  cases hc : findCustomer store params.userId <;> simp only [hc]
  rename_i customer
  cases hp : findPackage store params.packageId <;> simp only [hp]
  rename_i pkg
  by_cases hd : pkg.days ≤ 0
  · simp only [if_pos hd]
  · simp only [if_neg hd]
    by_cases ha : params.amountPaid ≠ round (pkg.price * 100)
    · simp only [if_pos ha]
    · simp only [if_neg ha]
      cases he : findOrderByPaymentIntent store params.stripePaymentIntentId <;>
        simp only [he]
      by_cases hlen : ((getAvailableDates store.settings
          (startOfDayUTC now + msPerDay) pkg.days).length : Int) < pkg.days
      · simp only [if_pos hlen]
      · simp only [if_neg hlen]
        rw [orderCreate_coordinator _ rfl rfl, orderCreate_coordinator _ rfl rfl]
        rfl

lemma wRun : createOrderFromPayment wStore wParams wNow wOrderNumber .failure =
    .ok (wOrder, wStoreAfter) := by
  have hexp : round ((2499:ℚ)/100 * 100) = (2499 : ℤ) := by norm_num
  simp [createOrderFromPayment, createSteps, findCustomer, findPackage,
    findOrderByPaymentIntent, buildDeliveryAddress, getAvailableDates,
    sortDates, orderCreate, wStore, wStoreAfter, wParams, wCustomer, wPackage,
    wOrder, wNow, wOrderNumber, OrderStatusMember, DeliveryStatusMember,
    orderStatusValues, deliveryStatusValues, startOfDayUTC, normalizeDateUTC,
    msPerDay, plainError, classifyError, jsToLower, hexp, List.find?,
    List.filter, List.insertionSort, List.orderedInsert]

lemma createOrderFromPayment_isOk (store : Store) (params : CreateOrderParams)
    (now : Nat) (num : String) (geo : GeocodeOutcome) :
    (createOrderFromPayment store params now num geo).isOk =
      (createSteps store params now num geo).isOk := by
  unfold createOrderFromPayment
  cases h : createSteps store params now num geo <;> rfl

/-- C1 counterexample: a call whose payment-intent id already identifies
the persisted `wOrder` but whose paid amount is stale fails with the
amount-mismatch error instead of returning the pre-existing Order —
the claim's unconditional "returns the pre-existing Order" is false. -/
theorem c1_counterexample :
    findOrderByPaymentIntent wStoreAfter "pi_1" = some wOrder ∧
    createOrderFromPayment wStoreAfter c1Params wNow wOrderNumber .failure =
      .error ⟨"Payment amount mismatch. Expected 2499, received 100",
        some 500⟩ := by
  have hexp : round ((2499:ℚ)/100 * 100) = (2499 : ℤ) := by norm_num
  constructor
  · rfl
  · simp [createOrderFromPayment, createSteps, findCustomer, findPackage,
      findOrderByPaymentIntent, wStoreAfter, wStore, c1Params, wParams,
      wCustomer, wPackage, wOrder, wNow, plainError, classifyError, hexp,
      List.find?]
    rfl

/-- C1 (amended): when the preliminary steps pass — customer and package
found, positive delivery count, amount matching — a call whose
payment-intent id identifies a persisted Order aborts the transaction and
returns that pre-existing Order, leaving the store unchanged. -/
theorem c1_idempotency (store : Store) (params : CreateOrderParams)
    (now : Nat) (num : String) (geo : GeocodeOutcome) (customer : Customer)
    (pkg : Package) (existing : OrderDoc)
    (hc : findCustomer store params.userId = some customer)
    (hp : findPackage store params.packageId = some pkg)
    (hdays : 0 < pkg.days)
    (hamt : params.amountPaid = round (pkg.price * 100))
    (hex : findOrderByPaymentIntent store params.stripePaymentIntentId =
      some existing) :
    createOrderFromPayment store params now num geo = .ok (existing, store) ∧
    storeAfterCreate store params now num geo = store := by
  have hrun : createSteps store params now num geo = .ok (existing, store) := by
    simp only [createSteps, hc, hp]
    rw [if_neg (by omega : ¬pkg.days ≤ 0)]
    rw [if_neg (show ¬params.amountPaid ≠ round (pkg.price * 100) from
      not_not.mpr hamt)]
    rw [hex]
  have hlift := (createOrderFromPayment_ok_iff store params now num geo
    (existing, store)).mpr hrun
  refine ⟨hlift, ?_⟩
  unfold storeAfterCreate
  rw [hlift]

/-- C1 witness: replaying `wParams` against the store holding `wOrder`
returns `wOrder` itself and leaves the store unchanged. -/
theorem c1_idempotency_witness :
    createOrderFromPayment wStoreAfter wParams wNow wOrderNumber .failure =
      .ok (wOrder, wStoreAfter) ∧
    storeAfterCreate wStoreAfter wParams wNow wOrderNumber .failure =
      wStoreAfter :=
  c1_idempotency wStoreAfter wParams wNow wOrderNumber .failure wCustomer
    wPackage wOrder rfl rfl (by norm_num [wPackage]) (by norm_num [wPackage, wParams]) rfl

/-- C2 counterexample: paying 1999 cents against the 2499-cent package
does fail and creates no Order, but the surfaced error carries
`statusCode 500` (the coordinator's catch-all), not the claimed
400-equivalent Validation status. -/
theorem c2_counterexample :
    createOrderFromPayment wStore c2Params wNow wOrderNumber .failure =
      .error ⟨"Payment amount mismatch. Expected 2499, received 1999",
        some 500⟩ ∧
    (500 : Nat) ≠ 400 ∧
    storeAfterCreate wStore c2Params wNow wOrderNumber .failure = wStore := by
  have hexp : round ((2499:ℚ)/100 * 100) = (2499 : ℤ) := by norm_num
  have hrun : createOrderFromPayment wStore c2Params wNow wOrderNumber
      .failure = .error ⟨"Payment amount mismatch. Expected 2499, received 1999", some 500⟩ := by
    simp [createOrderFromPayment, createSteps, findCustomer, findPackage,
      findOrderByPaymentIntent, wStore, c2Params, wParams, wCustomer,
      wPackage, wNow, plainError, classifyError, hexp, List.find?]
    rfl
  refine ⟨hrun, by omega, ?_⟩
  unfold storeAfterCreate
  rw [hrun]

/-- C2 (amended): when the customer and package exist and the package has
a positive delivery count, a call whose `amountPaid` differs from
`round(packagePrice * 100)` fails with the "Payment amount mismatch"
error — surfaced with `statusCode 500`, not 400 — and no Order is created
(the store is unchanged). -/
theorem c2_amount_guard (store : Store) (params : CreateOrderParams)
    (now : Nat) (num : String) (geo : GeocodeOutcome) (customer : Customer)
    (pkg : Package)
    (hc : findCustomer store params.userId = some customer)
    (hp : findPackage store params.packageId = some pkg)
    (hdays : 0 < pkg.days)
    (hmm : params.amountPaid ≠ round (pkg.price * 100)) :
    createOrderFromPayment store params now num geo =
      .error ⟨"Payment amount mismatch. Expected " ++
        toString (round (pkg.price * 100) : ℤ) ++ ", received " ++
        toString params.amountPaid, some 500⟩ ∧
    storeAfterCreate store params now num geo = store := by
  have hrun : createSteps store params now num geo =
      .error (plainError ("Payment amount mismatch. Expected " ++
        toString (round (pkg.price * 100) : ℤ) ++ ", received " ++
        toString params.amountPaid)) := by
    simp only [createSteps, hc, hp]
    rw [if_neg (by omega : ¬pkg.days ≤ 0)]
    rw [if_pos hmm]
  have hlift : createOrderFromPayment store params now num geo =
      .error ⟨"Payment amount mismatch. Expected " ++
        toString (round (pkg.price * 100) : ℤ) ++ ", received " ++
        toString params.amountPaid, some 500⟩ := by
    unfold createOrderFromPayment
    rw [hrun]
    rfl
  refine ⟨hlift, ?_⟩
  unfold storeAfterCreate
  rw [hlift]

/-- C2 witness: the 1999-cent payment against the 2499-cent package. -/
theorem c2_amount_guard_witness :
    createOrderFromPayment wStore c2Params wNow wOrderNumber .failure =
      .error ⟨"Payment amount mismatch. Expected " ++
        toString (round (wPackage.price * 100) : ℤ) ++ ", received " ++
        toString c2Params.amountPaid, some 500⟩ ∧
    storeAfterCreate wStore c2Params wNow wOrderNumber .failure = wStore :=
  c2_amount_guard wStore c2Params wNow wOrderNumber .failure wCustomer
    wPackage rfl rfl (by norm_num [wPackage])
    (by norm_num [wPackage, c2Params, wParams])

/-- C3: every Order persisted on the fresh-creation path has exactly
`deliveryDays` schedule entries, a strictly ascending schedule, and an
`endDate` equal to the schedule's last entry.  The `Nodup` hypothesis is
the `unique: true` index on `DeliveryDateSetting.date`. -/
theorem c3_schedule_invariant (store : Store) (params : CreateOrderParams)
    (now : Nat) (num : String) (geo : GeocodeOutcome) (o : OrderDoc)
    (s' : Store)
    (hnodup : (store.settings.map (·.date)).Nodup)
    (hno : findOrderByPaymentIntent store params.stripePaymentIntentId = none)
    (h : createOrderFromPayment store params now num geo = .ok (o, s')) :
    (o.deliverySchedule.length : Int) = o.deliveryDays ∧
    o.deliverySchedule.Pairwise (· < ·) ∧
    o.deliverySchedule.getLast? = some o.endDate := by
  have h' := (createOrderFromPayment_ok_iff store params now num geo
    (o, s')).mp h
  obtain ⟨customer, pkg, hc, hp, hdays, hamt, hlen, ho, hs⟩ :=
    createSteps_ok_inv store params now num geo o s' hno h'
  subst ho
  have hlen2 := getAvailableDates_length store.settings
    (startOfDayUTC now + msPerDay) pkg.days
  have hle : (getAvailableDates store.settings (startOfDayUTC now + msPerDay)
      pkg.days).length ≤ pkg.days.toNat := by
    rw [hlen2]; exact min_le_left _ _
  have hpos : 0 < (getAvailableDates store.settings
      (startOfDayUTC now + msPerDay) pkg.days).length := by omega
  refine ⟨?_, ?_, ?_⟩
  · simp only [newOrderRecord]
    omega
  · simp only [newOrderRecord]
    exact getAvailableDates_pairwise_lt _ _ _ hnodup
  · simp only [newOrderRecord]
    have hne : getAvailableDates store.settings (startOfDayUTC now + msPerDay)
        pkg.days ≠ [] := by
      intro hnil
      rw [hnil] at hpos
      simp at hpos
    rw [List.getLast?_eq_getLast _ hne]
    simp

/-- C3 witness: the `wStore` run. -/
theorem c3_schedule_invariant_witness :
    ((wOrder.deliverySchedule.length : Int) = wOrder.deliveryDays ∧
     wOrder.deliverySchedule.Pairwise (· < ·) ∧
     wOrder.deliverySchedule.getLast? = some wOrder.endDate) :=
  c3_schedule_invariant wStore wParams wNow wOrderNumber .failure wOrder
    wStoreAfter (by decide) rfl wRun

/-- C5 counterexample: in the `wStore` run the persisted Order's
`startDate` is the placement instant (midday), not the first scheduled
delivery date (the next UTC midnight). -/
theorem c5_counterexample :
    createOrderFromPayment wStore wParams wNow wOrderNumber .failure =
      .ok (wOrder, wStoreAfter) ∧
    wOrder.deliverySchedule.head? = some 86400000 ∧
    wOrder.startDate = 43200000 ∧ (43200000 : Nat) ≠ 86400000 :=
  ⟨wRun, rfl, rfl, by omega⟩

/-- C5 (amended): `startDate` equals the order's placement instant, which
strictly precedes every entry of `deliverySchedule` (in particular the
first). -/
theorem c5_start_date (store : Store) (params : CreateOrderParams)
    (now : Nat) (num : String) (geo : GeocodeOutcome) (o : OrderDoc)
    (s' : Store) (d : Nat)
    (hno : findOrderByPaymentIntent store params.stripePaymentIntentId = none)
    (h : createOrderFromPayment store params now num geo = .ok (o, s'))
    (hd : d ∈ o.deliverySchedule) :
    o.startDate = now ∧ o.startDate < d := by
  have h' := (createOrderFromPayment_ok_iff store params now num geo
    (o, s')).mp h
  obtain ⟨customer, pkg, hc, hp, hdays, hamt, hlen, ho, hs⟩ :=
    createSteps_ok_inv store params now num geo o s' hno h'
  subst ho
  refine ⟨rfl, ?_⟩
  have hd2 : d ∈ getAvailableDates store.settings
      (startOfDayUTC now + msPerDay) pkg.days := by
    simpa [newOrderRecord] using hd
  have hmem := (getAvailableDates_mem _ _ _ _ hd2).1
  rw [normalizeDateUTC_nextDay] at hmem
  have h2 := lt_startOfDayUTC_add now
  show now < d
  omega

/-- C5 witness: the first scheduled date of the `wStore` run. -/
theorem c5_start_date_witness :
    wOrder.startDate = wNow ∧ wOrder.startDate < 86400000 :=
  c5_start_date wStore wParams wNow wOrderNumber .failure wOrder wStoreAfter
    86400000 rfl wRun (by simp [wOrder])

/-- C10: every Order persisted on the fresh-creation path starts with
status "Active", no assigned driver, and deliveryStatus
"Pending Assignment" — because `DeliveryStatus.SCHEDULED` is not a member
of the enum (it evaluates to `undefined`) and the schema default
applies. -/
theorem c10_initial_state (store : Store) (params : CreateOrderParams)
    (now : Nat) (num : String) (geo : GeocodeOutcome) (o : OrderDoc)
    (s' : Store)
    (hno : findOrderByPaymentIntent store params.stripePaymentIntentId = none)
    (h : createOrderFromPayment store params now num geo = .ok (o, s')) :
    o.status = "Active" ∧ o.assignedDriver = none ∧
    o.deliveryStatus = "Pending Assignment" ∧
    DeliveryStatusMember "SCHEDULED" = none := by
  have h' := (createOrderFromPayment_ok_iff store params now num geo
    (o, s')).mp h
  obtain ⟨customer, pkg, hc, hp, hdays, hamt, hlen, ho, hs⟩ :=
    createSteps_ok_inv store params now num geo o s' hno h'
  subst ho
  exact ⟨rfl, rfl, rfl, rfl⟩

/-- C10 witness: the `wStore` run. -/
theorem c10_initial_state_witness :
    wOrder.status = "Active" ∧ wOrder.assignedDriver = none ∧
    wOrder.deliveryStatus = "Pending Assignment" ∧
    DeliveryStatusMember "SCHEDULED" = none :=
  c10_initial_state wStore wParams wNow wOrderNumber .failure wOrder
    wStoreAfter rfl wRun

/-- C6: a geocoding outcome of `null` or a thrown error never changes
whether order creation succeeds (the same call with successful
coordinates has the same success bit), and the Order persisted under such
an outcome carries no latitude/longitude. -/
theorem c6_geocoding_resilience (store : Store) (params : CreateOrderParams)
    (now : Nat) (num : String) (geo : GeocodeOutcome) (la lo : ℚ)
    (o : OrderDoc) (s' : Store)
    (hgeo : geo = .failure ∨ geo = .thrown)
    (hno : findOrderByPaymentIntent store params.stripePaymentIntentId = none)
    (h : createOrderFromPayment store params now num geo = .ok (o, s')) :
    (createOrderFromPayment store params now num geo).isOk =
      (createOrderFromPayment store params now num (.success la lo)).isOk ∧
    o.deliveryAddress.latitude = none ∧
    o.deliveryAddress.longitude = none := by
  refine ⟨?_, ?_⟩
  · rw [createOrderFromPayment_isOk, createOrderFromPayment_isOk]
    exact createSteps_isOk_geo store params now num geo (.success la lo)
  · have h' := (createOrderFromPayment_ok_iff store params now num geo
      (o, s')).mp h
    obtain ⟨customer, pkg, hc, hp, hdays, hamt, hlen, ho, hs⟩ :=
      createSteps_ok_inv store params now num geo o s' hno h'
    subst ho
    rcases hgeo with rfl | rfl <;>
      simp [newOrderRecord, buildDeliveryAddress]

/-- C6 witness: the `wStore` run with a failed geocode next to one with
coordinates. -/
theorem c6_geocoding_resilience_witness :
    (createOrderFromPayment wStore wParams wNow wOrderNumber .failure).isOk =
      (createOrderFromPayment wStore wParams wNow wOrderNumber
        (.success 51 (-114))).isOk ∧
    wOrder.deliveryAddress.latitude = none ∧
    wOrder.deliveryAddress.longitude = none :=
  c6_geocoding_resilience wStore wParams wNow wOrderNumber .failure 51 (-114)
    wOrder wStoreAfter (Or.inl rfl) rfl wRun

/-- C4 counterexample: with the only enabled calendar day 200 days out —
far beyond the spec's 90-day search window — the wired scheduler still
collects it and the coordinator persists the Order, instead of failing. -/
theorem c4_counterexample :
    createOrderFromPayment c4xStore c4xParams wNow wOrderNumber .failure =
      .ok (c4xOrder, { c4xStore with orders := [c4xOrder] }) ∧
    c4xOrder.deliverySchedule = [17280000000] ∧
    startOfDayUTC wNow + msPerDay + 90 * msPerDay < 17280000000 := by
  have hexp : round ((10:ℚ) * 100) = (1000 : ℤ) := by norm_num
  refine ⟨?_, rfl, by norm_num [startOfDayUTC, msPerDay, wNow]⟩
  simp [createOrderFromPayment, createSteps, findCustomer, findPackage,
    findOrderByPaymentIntent, buildDeliveryAddress, getAvailableDates,
    sortDates, orderCreate, c4xStore, c4xParams, c4xPackage, wCustomer,
    c4xOrder, wNow, wOrderNumber, OrderStatusMember, DeliveryStatusMember,
    orderStatusValues, deliveryStatusValues, startOfDayUTC, normalizeDateUTC,
    msPerDay, plainError, classifyError, jsToLower, hexp, List.find?,
    List.filter, List.insertionSort, List.orderedInsert]

/-- C4 (amended): the scheduler wired into the coordinator collects only
enabled calendar days on or after the first candidate date but applies
no maximum search window; and whenever fewer than the required count of
enabled days exist on or after the candidate date in the whole calendar,
the coordinator fails with the scheduling error and no Order is created. -/
theorem c4_scheduler (store : Store) (params : CreateOrderParams) (now : Nat)
    (num : String) (geo : GeocodeOutcome) (customer : Customer)
    (pkg : Package) (d : Nat)
    (hc : findCustomer store params.userId = some customer)
    (hp : findPackage store params.packageId = some pkg)
    (hdays : 0 < pkg.days)
    (hamt : params.amountPaid = round (pkg.price * 100))
    (hno : findOrderByPaymentIntent store params.stripePaymentIntentId = none) :
    (d ∈ getAvailableDates store.settings (startOfDayUTC now + msPerDay)
        pkg.days →
      startOfDayUTC now + msPerDay ≤ d ∧
      (⟨d, true⟩ : DeliveryDateSetting) ∈ store.settings) ∧
    (((store.settings.filter fun s =>
        decide (normalizeDateUTC (startOfDayUTC now + msPerDay) ≤ s.date) &&
          s.isEnabled).length : Int) < pkg.days →
      createOrderFromPayment store params now num geo =
        .error ⟨"Unable to schedule all " ++ toString pkg.days ++
          " deliveries based on current availability.", some 500⟩ ∧
      storeAfterCreate store params now num geo = store) := by
  constructor
  · intro hd
    have hmem := getAvailableDates_mem _ _ _ _ hd
    rw [normalizeDateUTC_nextDay] at hmem
    exact hmem
  · intro hshort
    have hlen := getAvailableDates_length store.settings
      (startOfDayUTC now + msPerDay) pkg.days
    have hler : (getAvailableDates store.settings
        (startOfDayUTC now + msPerDay) pkg.days).length ≤
        ((store.settings.filter fun s =>
          decide (normalizeDateUTC (startOfDayUTC now + msPerDay) ≤ s.date) &&
            s.isEnabled).length) := by
      rw [hlen]; exact min_le_right _ _
    have hlt : ((getAvailableDates store.settings
        (startOfDayUTC now + msPerDay) pkg.days).length : Int) < pkg.days := by
      omega
    have hrun : createSteps store params now num geo =
        .error (plainError ("Unable to schedule all " ++ toString pkg.days ++
          " deliveries based on current availability.")) := by
      simp only [createSteps, hc, hp, hno]
      rw [if_neg (by omega : ¬pkg.days ≤ 0)]
      rw [if_neg (show ¬params.amountPaid ≠ round (pkg.price * 100) from
        not_not.mpr hamt)]
      rw [if_pos hlt]
    have hlift : createOrderFromPayment store params now num geo =
        .error ⟨"Unable to schedule all " ++ toString pkg.days ++
          " deliveries based on current availability.", some 500⟩ := by
      unfold createOrderFromPayment
      rw [hrun]
      rfl
    refine ⟨hlift, ?_⟩
    unfold storeAfterCreate
    rw [hlift]

/-- C4 witness: three deliveries against a calendar with a single enabled
day — every collected date is an enabled day on or after the candidate,
and the shortage aborts creation. -/
theorem c4_scheduler_witness :
    (startOfDayUTC wNow + msPerDay ≤ 86400000 ∧
     (⟨86400000, true⟩ : DeliveryDateSetting) ∈ c4wStore.settings) ∧
    (createOrderFromPayment c4wStore c4wParams wNow wOrderNumber .failure =
      .error ⟨"Unable to schedule all 3 deliveries based on current availability.",
        some 500⟩ ∧
     storeAfterCreate c4wStore c4wParams wNow wOrderNumber .failure =
       c4wStore) := by
  have t := c4_scheduler c4wStore c4wParams wNow wOrderNumber .failure
    wCustomer wPackage 86400000 rfl rfl (by norm_num [wPackage])
    (by norm_num [wPackage, c4wParams, wParams]) rfl
  exact ⟨t.1 (by decide), t.2 (by decide)⟩

lemma applyAddrField_noop {α : Type} [DecidableEq α] (cur : Option α)
    (pv : Option α) (h : ∀ v, pv = some v → cur = some v) :
    applyAddrField cur pv = (cur, false) := by
  unfold applyAddrField
  rcases hpv : pv with _ | v
  · rcases cur with _ | c <;> rfl
  · rw [h v hpv]
    simp

lemma applyAddressPatch_noop (cur : DeliveryAddress) (ap : AddressPatch)
    (h1 : ∀ v, ap.address = some v → cur.address = some v)
    (h2 : ∀ v, ap.city = some v → cur.city = some v)
    (h3 : ∀ v, ap.postalCode = some v → cur.postalCode = some v)
    (h4 : ∀ v, ap.currentLocation = some v → cur.currentLocation = some v)
    (h5 : ∀ v, ap.latitude = some v → cur.latitude = some v)
    (h6 : ∀ v, ap.longitude = some v → cur.longitude = some v) :
    applyAddressPatch cur ap = (cur, false) := by
  unfold applyAddressPatch
  rw [applyAddrField_noop _ _ h1, applyAddrField_noop _ _ h2,
    applyAddrField_noop _ _ h3, applyAddrField_noop _ _ h4,
    applyAddrField_noop _ _ h5, applyAddrField_noop _ _ h6]
  rfl

lemma stepStatus_noop (p : AdminUpdatePatch) (o : OrderDoc)
    (h : ∀ v, p.status = some v → v = o.status) :
    stepStatus p (o, false) = (o, false) := by
  unfold stepStatus
  rcases hps : p.status with _ | v
  · rfl
  · have hv := h v hps
    subst hv
    simp

lemma stepDeliveryStatus_noop (p : AdminUpdatePatch) (o : OrderDoc)
    (h : ∀ v, p.deliveryStatus = some v → v = o.deliveryStatus) :
    stepDeliveryStatus p (o, false) = (o, false) := by
  unfold stepDeliveryStatus
  rcases hps : p.deliveryStatus with _ | v
  · rfl
  · have hv := h v hps
    subst hv
    simp

lemma stepAssignedDriver_noop (isValidId : String → Bool)
    (p : AdminUpdatePatch) (o : OrderDoc)
    (h : ∀ dv, p.assignedDriver = some dv →
      optIdToString (normalizeDriverPatch isValidId dv) =
        optIdToString o.assignedDriver) :
    stepAssignedDriver isValidId p (o, false) = (o, false) := by
  unfold stepAssignedDriver
  rcases hps : p.assignedDriver with _ | dv
  · rfl
  · have hv := h dv hps
    simp [hv]

lemma stepDeliverySequence_noop (p : AdminUpdatePatch) (o : OrderDoc)
    (h : ∀ v, p.deliverySequence = some v → o.deliverySequence = some v) :
    stepDeliverySequence p (o, false) = (o, false) := by
  unfold stepDeliverySequence
  rcases hps : p.deliverySequence with _ | v
  · rfl
  · have hv := h v hps
    simp [hv]

lemma stepProofOfDeliveryUrl_noop (p : AdminUpdatePatch) (o : OrderDoc)
    (h : ∀ v, p.proofOfDeliveryUrl = some v → o.proofOfDeliveryUrl = some v) :
    stepProofOfDeliveryUrl p (o, false) = (o, false) := by
  unfold stepProofOfDeliveryUrl
  rcases hps : p.proofOfDeliveryUrl with _ | v
  · rfl
  · have hv := h v hps
    simp [hv]

lemma stepDeliveryAddress_noop (p : AdminUpdatePatch) (o : OrderDoc)
    (h : ∀ ap, p.deliveryAddress = some ap →
      applyAddressPatch o.deliveryAddress ap = (o.deliveryAddress, false)) :
    stepDeliveryAddress p (o, false) = (o, false) := by
  unfold stepDeliveryAddress
  rcases hps : p.deliveryAddress with _ | ap
  · rfl
  · have hv := h ap hps
    simp [hv]

lemma stepStartDate_noop (parseDate : String → Option Nat)
    (p : AdminUpdatePatch) (o : OrderDoc)
    (h : ∀ s t, p.startDate = some (.str s) → parseDate s = some t →
      t = o.startDate) :
    stepStartDate parseDate p (o, false) = (o, false) := by
  unfold stepStartDate
  rcases hps : p.startDate with _ | dp
  · rfl
  · rcases dp with s | t
    · rcases hpt : parseDate s with _ | t
      · simp [hpt]
      · have hv := h s t hps hpt
        subst hv
        simp [hpt]
    · rfl

lemma stepEndDate_noop (parseDate : String → Option Nat)
    (p : AdminUpdatePatch) (o : OrderDoc)
    (h : ∀ s t, p.endDate = some (.str s) → parseDate s = some t →
      t = o.endDate) :
    stepEndDate parseDate p (o, false) = (o, false) := by
  unfold stepEndDate
  rcases hps : p.endDate with _ | dp
  · rfl
  · rcases dp with s | t
    · rcases hpt : parseDate s with _ | t
      · simp [hpt]
      · have hv := h s t hps hpt
        subst hv
        simp [hpt]
    · rfl

lemma stepPackageName_noop (p : AdminUpdatePatch) (o : OrderDoc)
    (h : ∀ v, p.packageName = some v → v = o.packageName) :
    stepPackageName p (o, false) = (o, false) := by
  unfold stepPackageName
  rcases hps : p.packageName with _ | v
  · rfl
  · have hv := h v hps
    subst hv
    simp

lemma stepPackagePrice_noop (p : AdminUpdatePatch) (o : OrderDoc)
    (h : ∀ v, p.packagePrice = some v → v = o.packagePrice) :
    stepPackagePrice p (o, false) = (o, false) := by
  unfold stepPackagePrice
  rcases hps : p.packagePrice with _ | v
  · rfl
  · have hv := h v hps
    subst hv
    simp

lemma stepDeliveryDays_noop (p : AdminUpdatePatch) (o : OrderDoc)
    (h : ∀ v, p.deliveryDays = some v → v = o.deliveryDays) :
    stepDeliveryDays p (o, false) = (o, false) := by
  unfold stepDeliveryDays
  rcases hps : p.deliveryDays with _ | v
  · rfl
  · have hv := h v hps
    subst hv
    simp

lemma stepDeliverySchedule_noop (p : AdminUpdatePatch) (o : OrderDoc)
    (h : p.deliverySchedule = none) :
    stepDeliverySchedule p (o, false) = (o, false) := by
  unfold stepDeliverySchedule
  rw [h]

/-- C7 (amended): an admin-update payload whose present fields all equal
the order's current values — nested address comparison included — and
which does not mention `deliverySchedule` performs no write and returns
the order's current state unchanged. -/
theorem c7_admin_update_noop (isValidId : String → Bool)
    (parseDate : String → Option Nat) (o : OrderDoc) (p : AdminUpdatePatch)
    (hagree : patchAgrees isValidId parseDate o p = true)
    (hsched : p.deliverySchedule = none) :
    applyAdminUpdates isValidId parseDate o p = (o, false) := by
  simp only [patchAgrees, Bool.and_eq_true] at hagree
  obtain ⟨⟨⟨⟨⟨⟨⟨⟨⟨⟨⟨h1, h2⟩, h3⟩, h4⟩, h5⟩, h6⟩, h7⟩, h8⟩, h9⟩, h10⟩,
    h11⟩, h12⟩ := hagree
  have g1 : ∀ v, p.status = some v → v = o.status := by
    intro v hv
    rw [hv] at h1
    simpa using h1
  have g2 : ∀ v, p.deliveryStatus = some v → v = o.deliveryStatus := by
    intro v hv
    rw [hv] at h2
    simpa using h2
  have g3 : ∀ dv, p.assignedDriver = some dv →
      optIdToString (normalizeDriverPatch isValidId dv) =
        optIdToString o.assignedDriver := by
    intro dv hdv
    rw [hdv] at h3
    rcases dv with _ | s | id | _
    · simp only [beq_iff_eq] at h3
      rw [h3]
      rfl
    · simp only [Bool.and_eq_true, beq_iff_eq] at h3
      obtain ⟨hval, heq⟩ := h3
      simp [normalizeDriverPatch, hval, heq]
    · simp only [Bool.and_eq_true, beq_iff_eq] at h3
      obtain ⟨hval, heq⟩ := h3
      simp [normalizeDriverPatch, hval, heq]
    · simp at h3
  have g4 : ∀ v, p.deliverySequence = some v → o.deliverySequence = some v := by
    intro v hv
    rw [hv] at h4
    simpa using h4
  have g5 : ∀ v, p.proofOfDeliveryUrl = some v →
      o.proofOfDeliveryUrl = some v := by
    intro v hv
    rw [hv] at h5
    simpa using h5
  have g6 : ∀ ap, p.deliveryAddress = some ap →
      applyAddressPatch o.deliveryAddress ap =
        (o.deliveryAddress, false) := by
    intro ap hap
    rw [hap] at h6
    simp only [Bool.and_eq_true] at h6
    obtain ⟨⟨⟨⟨⟨a1, a2⟩, a3⟩, a4⟩, a5⟩, a6⟩ := h6
    refine applyAddressPatch_noop _ _ ?_ ?_ ?_ ?_ ?_ ?_ <;> intro v hv
    · rw [hv] at a1; simpa using a1
    · rw [hv] at a2; simpa using a2
    · rw [hv] at a3; simpa using a3
    · rw [hv] at a4; simpa using a4
    · rw [hv] at a5; simpa using a5
    · rw [hv] at a6; simpa using a6
  have g7 : ∀ s t, p.startDate = some (.str s) → parseDate s = some t →
      t = o.startDate := by
    intro s t hs ht
    rw [hs] at h7
    simp only [beq_iff_eq] at h7
    rw [ht] at h7
    exact Option.some_inj.mp h7
  have g8 : ∀ s t, p.endDate = some (.str s) → parseDate s = some t →
      t = o.endDate := by
    intro s t hs ht
    rw [hs] at h8
    simp only [beq_iff_eq] at h8
    rw [ht] at h8
    exact Option.some_inj.mp h8
  have g9 : ∀ v, p.packageName = some v → v = o.packageName := by
    intro v hv
    rw [hv] at h9
    simpa using h9
  have g10 : ∀ v, p.packagePrice = some v → v = o.packagePrice := by
    intro v hv
    rw [hv] at h10
    simpa using h10
  have g11 : ∀ v, p.deliveryDays = some v → v = o.deliveryDays := by
    intro v hv
    rw [hv] at h11
    simpa using h11
  unfold applyAdminUpdates
  rw [stepStatus_noop p o g1, stepDeliveryStatus_noop p o g2,
    stepAssignedDriver_noop isValidId p o g3,
    stepDeliverySequence_noop p o g4, stepProofOfDeliveryUrl_noop p o g5,
    stepDeliveryAddress_noop p o g6, stepStartDate_noop parseDate p o g7,
    stepEndDate_noop parseDate p o g8, stepPackageName_noop p o g9,
    stepPackagePrice_noop p o g10, stepDeliveryDays_noop p o g11,
    stepDeliverySchedule_noop p o hsched]

/-- C7 witness: the all-equal payload `c7AgreePatch` against `wOrder`. -/
theorem c7_admin_update_noop_witness :
    applyAdminUpdates wIsValid wParse wOrder c7AgreePatch = (wOrder, false) :=
  c7_admin_update_noop wIsValid wParse wOrder c7AgreePatch
    (by simp [patchAgrees, c7AgreePatch, wOrder, wParse]) rfl

/-- C7 counterexample: a payload whose only present field,
`deliverySchedule`, equals the order's current schedule agrees with the
order on every present field, yet the update marks the document changed
and performs a write — the unqualified no-op claim is false. -/
theorem c7_counterexample :
    patchAgrees wIsValid wParse wOrder c7SchedPatch = true ∧
    applyAdminUpdates wIsValid wParse wOrder c7SchedPatch = (wOrder, true) := by
  constructor
  · simp [patchAgrees, c7SchedPatch, wOrder]
  · simp only [applyAdminUpdates, stepStatus, stepDeliveryStatus,
      stepAssignedDriver, stepDeliverySequence, stepProofOfDeliveryUrl,
      stepDeliveryAddress, stepStartDate, stepEndDate, stepPackageName,
      stepPackagePrice, stepDeliveryDays, stepDeliverySchedule, c7SchedPatch]
    rfl

/-- C8: on an order with an assigned driver, an `assignedDriver` payload
value of invalid shape is *not* merely ignored with a warning — the
normalized value stays `null`, the change check fires, and the update
unassigns the driver and writes, contradicting the logged
"Ignoring invalid assignedDriver value". -/
theorem c8_driver_invalid_shape_unassigns :
    c8Order.assignedDriver = some "64aabbccddeeff0011223344" ∧
    applyAdminUpdates wIsValid wParse c8Order c8Patch =
      ({ c8Order with assignedDriver := none }, true) := by
  constructor
  · rfl
  · simp only [applyAdminUpdates, stepStatus, stepDeliveryStatus,
      stepAssignedDriver, stepDeliverySequence, stepProofOfDeliveryUrl,
      stepDeliveryAddress, stepStartDate, stepEndDate, stepPackageName,
      stepPackagePrice, stepDeliveryDays, stepDeliverySchedule, c8Patch,
      normalizeDriverPatch, optIdToString]
    rfl

/-- C9: `getOperationalDateStatus` fails with a 400 Validation error on an
unparseable date string; on a valid date it returns the stored record for
that (normalized) day, and the distinct "not configured" result `none` —
rather than a disabled record — when no record exists. -/
theorem c9_operational_date_status (parseDate : String → Option Nat)
    (records : List OperationalDateRec) (s : String) (t : Nat)
    (rec : OperationalDateRec) :
    (parseDate s = none → getOperationalDateStatus parseDate records s =
      .error (appError ("Invalid date format provided: " ++ s) 400)) ∧
    (parseDate s = some t →
      records.find? (·.date = startOfDayUTC t) = none →
      getOperationalDateStatus parseDate records s = .ok none) ∧
    (parseDate s = some t →
      records.find? (·.date = startOfDayUTC t) = some rec →
      getOperationalDateStatus parseDate records s = .ok (some rec) ∧
      rec.date = startOfDayUTC t) := by
  refine ⟨?_, ?_, ?_⟩
  · intro hp
    unfold getOperationalDateStatus
    rw [hp]
  · intro hp hf
    unfold getOperationalDateStatus
    simp only [hp]
    rw [hf]
  · intro hp hf
    unfold getOperationalDateStatus
    simp only [hp]
    rw [hf]
    refine ⟨rfl, ?_⟩
    have := List.find?_some hf
    simpa using this

/-- C9 witness: an invalid string, a configured day, and an unconfigured
day against the `c9Records` calendar. -/
theorem c9_operational_date_status_witness :
    (getOperationalDateStatus c9Parse c9Records "nonsense" =
      .error (appError "Invalid date format provided: nonsense" 400)) ∧
    (getOperationalDateStatus c9Parse c9Records "2024-05-02" = .ok none) ∧
    (getOperationalDateStatus c9Parse c9Records "2024-05-01" =
      .ok (some ⟨1714521600000, true, some "open", some "admin1"⟩)) := by
  refine ⟨?_, ?_, ?_⟩
  · exact (c9_operational_date_status c9Parse c9Records "nonsense" 0
      ⟨0, false, none, none⟩).1 rfl
  · exact (c9_operational_date_status c9Parse c9Records "2024-05-02"
      1714608000000 ⟨0, false, none, none⟩).2.1 rfl (by decide)
  · exact ((c9_operational_date_status c9Parse c9Records "2024-05-01"
      1714521600000 ⟨1714521600000, true, some "open", some "admin1"⟩).2.2 rfl
      (by decide)).1
